import Mathlib

/-!
Verification of the message-admission / rate-limiting controller and the
outbound inference pipeline of a chat relay bot (src/bot.py).

The embedding is shallow: each Python function is translated to a Lean
function.  Strings are Lean `String`s, manipulated through helpers that model
the Python string operations used by the source (`strip`, `startswith`,
slicing, `replace`).  Time is modelled by the rationals, so that fractional
cooldown arithmetic is exact.  The HTTP layer underneath the inference call is
an oracle value (`HttpBehaviour`) describing everything the source branches
on: an exception raised by the post, the response status, the parsed JSON
shape, and the raw body text.
-/

/-- Models Python str.strip with no arguments: remove leading and trailing
whitespace characters. -/
def pyStrip (s : String) : String :=
  String.mk (((s.data.dropWhile Char.isWhitespace).reverse.dropWhile
    Char.isWhitespace).reverse)

/-- Models Python s.startswith(pre). -/
def pyStartsWith (s pre : String) : Bool :=
  pre.data.isPrefixOf s.data

/-- Models the Python slice s[n:] (by code point). -/
def pyDrop (s : String) (n : Nat) : String :=
  String.mk (s.data.drop n)

/-- Replace every non-overlapping occurrence of `pat` (scanning left to
right) by `repl`, as Python str.replace does for a nonempty pattern.  The
fuel argument only makes the recursion structural: every step consumes at
least one character, so fuel = length of the input never runs out. -/
def replaceAllAux (pat repl : List Char) : Nat → List Char → List Char
  | _, [] => []
  | 0, s => s
  | Nat.succ n, c :: rest =>
    if pat.isPrefixOf (c :: rest) then
      repl ++ replaceAllAux pat repl n (rest.drop (pat.length - 1))
    else
      c :: replaceAllAux pat repl n rest

/-- Replace every non-overlapping occurrence of `pat` by `repl`, scanning
left to right. -/
def replaceAll (pat repl s : List Char) : List Char :=
  replaceAllAux pat repl s.length s

/-- Models Python s.replace(pat, repl) for a nonempty pattern. -/
def strReplace (s pat repl : String) : String :=
  String.mk (replaceAll pat.data repl.data s.data)

/-- COOLDOWN_SECONDS = 15 (src/bot.py line 13). -/
def COOLDOWN_SECONDS : ℚ := 15

/-- A Python exception, as far as the source distinguishes exceptions:
aiohttp.ClientConnectorError, or any other Exception (carrying its text). -/
inductive PyExn
  | clientConnectorError
  | otherExc (msg : String)
deriving DecidableEq, Repr

/-- What response.json() yields: an exception (invalid body), or a parsed
value that either has the keys choices[0].message.content (then `content` is
that field) or does not. -/
inductive JsonOutcome
  | invalid (msg : String)
  | valid (hasKeys : Bool) (content : String)
deriving DecidableEq, Repr

/-- Behaviour of the HTTP layer for one inference request: session.post
raises, or it returns a response with a status, a JSON outcome and a raw
body text. -/
inductive HttpBehaviour
  | postRaises (e : PyExn)
  | response (status : Nat) (json : JsonOutcome) (bodyText : String)
deriving DecidableEq, Repr

/-- Python truthiness test `not LM_STUDIO_ENDPOINT`: the configured endpoint
is falsy when it is absent or the empty string. -/
def endpointFalsy : Option String → Bool
  | none => true
  | some s => s = ""

/-- get_ai_response (src/bot.py lines 32-69), as the string it returns.  The
except clauses catch every modelled exception, so the translation is a total
function into String. -/
def get_ai_response (endpoint : Option String) (_prompt : String)
    (b : HttpBehaviour) : String :=
  if endpointFalsy endpoint then
    "Error: The LM Studio API endpoint is not configured."
  else
    match b with
    | .postRaises .clientConnectorError =>
      "Sorry, I can\x27t reach the AI at the moment. Please make sure the local server is running."
    | .postRaises (.otherExc _) =>
      "An unexpected error occurred while trying to contact the AI."
    | .response status j _bodyText =>
      if status = 200 then
        match j with
        | .invalid _ =>
          "An unexpected error occurred while trying to contact the AI."
        | .valid true content => pyStrip content
        | .valid false _ =>
          "Sorry, I received an unexpected response from the AI."
      else
        "Sorry, the AI service returned an error (Status: " ++ toString status ++ ")."

/-- The body of the try block of get_ai_response with exceptions explicit:
`.error e` means the statement raises the Python exception `e`.  A failing
response.json() raises; a non-200 status and a key-mismatch return normally. -/
def tryBody (b : HttpBehaviour) : Except PyExn String :=
  match b with
  | .postRaises e => .error e
  | .response status j _bodyText =>
    if status = 200 then
      match j with
      | .invalid m => .error (.otherExc m)
      | .valid true content => .ok (pyStrip content)
      | .valid false _ =>
        .ok "Sorry, I received an unexpected response from the AI."
    else
      .ok ("Sorry, the AI service returned an error (Status: " ++ toString status ++ ").")

/-- get_ai_response with exception propagation explicit: the try block runs,
then the two except clauses (ClientConnectorError, Exception) translate any
raised exception into a returned string.  `.error` survives only if some
exception escaped both handlers. -/
def get_ai_response_sem (endpoint : Option String) (_prompt : String)
    (b : HttpBehaviour) : Except PyExn String :=
  if endpointFalsy endpoint then
    .ok "Error: The LM Studio API endpoint is not configured."
  else
    match tryBody b with
    | .ok s => .ok s
    | .error .clientConnectorError =>
      .ok "Sorry, I can\x27t reach the AI at the moment. Please make sure the local server is running."
    | .error (.otherExc _) =>
      .ok "An unexpected error occurred while trying to contact the AI."

/-- The failure taxonomy of the spec (FailureKind). -/
inductive FailureKind
  | endpointNotConfigured
  | connectionRefused
  | upstreamError (statusCode : Nat)
  | malformedResponse
  | unknownError
deriving DecidableEq, Repr

/-- The user-facing message the source produces for each FailureKind. -/
def userMessage : FailureKind → String
  | .endpointNotConfigured =>
    "Error: The LM Studio API endpoint is not configured."
  | .connectionRefused =>
    "Sorry, I can\x27t reach the AI at the moment. Please make sure the local server is running."
  | .upstreamError c =>
    "Sorry, the AI service returned an error (Status: " ++ toString c ++ ")."
  | .malformedResponse =>
    "Sorry, I received an unexpected response from the AI."
  | .unknownError =>
    "An unexpected error occurred while trying to contact the AI."

/-- Which FailureKind, if any, a configuration and an HTTP behaviour amount
to (`none` = the request succeeds). -/
def classify (endpoint : Option String) (b : HttpBehaviour) :
    Option FailureKind :=
  if endpointFalsy endpoint then some .endpointNotConfigured
  else
    match b with
    | .postRaises .clientConnectorError => some .connectionRefused
    | .postRaises (.otherExc _) => some .unknownError
    | .response status j _ =>
      if status = 200 then
        match j with
        | .invalid _ => some .unknownError
        | .valid true _ => none
        | .valid false _ => some .malformedResponse
      else some (.upstreamError status)

/-- An inbound gateway event: author id, raw content, whether the author is
the bot itself (message.author == bot.user), and whether the message mentions
the bot (bot.user.mentioned_in(message)). -/
structure Event where
  authorId : Nat
  content : String
  isSelf : Bool
  mentionsBot : Bool
deriving Repr

/-- The shared mutable state: user_cooldowns (UserId to timestamp of last
completed request) and users_awaiting_response (the in-flight set). -/
structure BotState where
  cooldowns : Nat → Option ℚ
  inFlight : Nat → Bool

/-- The admission decision for one inbound event. -/
inductive Decision
  | ignoredSelf
  | ignoredNoTrigger
  | alreadyInFlight
  | onCooldown (remaining : ℚ)
  | emptyPrompt
  | admitted (prompt : String)
deriving DecidableEq, Repr

/-- Whether the event triggers the bot: content starts with the command
prefix, or the message mentions the bot (src/bot.py lines 91-92). -/
def isTrigger (ev : Event) : Bool :=
  pyStartsWith ev.content "!ask" || ev.mentionsBot

/-- The mention token the source strips: the literal <@id> for the bot id. -/
def mentionToken (botId : Nat) : String :=
  "<@" ++ toString botId ++ ">"

/-- Prompt extraction (src/bot.py lines 113-120): for a command, drop
len of the string bang-ask-space (5 code points) and strip; otherwise (a
mention) delete the mention token and strip. -/
def promptOf (botId : Nat) (ev : Event) : String :=
  if pyStartsWith ev.content "!ask" then
    pyStrip (pyDrop ev.content 5)
  else
    pyStrip (strReplace ev.content (mentionToken botId) "")

/-- The empty-prompt check and the final admission (src/bot.py lines
113-124 together with the admission to the pipeline). -/
def promptStep (botId : Nat) (ev : Event) : Decision :=
  if promptOf botId ev = "" then .emptyPrompt
  else .admitted (promptOf botId ev)

/-- The admission logic of on_message (src/bot.py lines 86-124), evaluated
exactly in source order: self check, trigger check (the source writes
`not is_command and not is_mention`, the negation of `isTrigger`), in-flight
check, cooldown check, prompt extraction and empty-prompt check. -/
def tryAdmit (botId : Nat) (st : BotState) (now : ℚ) (ev : Event) :
    Decision :=
  if ev.isSelf then .ignoredSelf
  else if !isTrigger ev then .ignoredNoTrigger
  else if st.inFlight ev.authorId then .alreadyInFlight
  else
    match st.cooldowns ev.authorId with
    | some t =>
      if now - t < COOLDOWN_SECONDS then
        .onCooldown (COOLDOWN_SECONDS - (now - t))
      else promptStep botId ev
    | none => promptStep botId ev

/-- A reply sent to the origin channel.  Rejection notices are ephemeral
(delete_after=10) in the source; the exact notice text is abstracted to a
constructor, the AI answer is kept verbatim. -/
inductive Reply
  | waitPrevious
  | cooldownNotice (remaining : ℚ)
  | emptyPromptNotice
  | aiResponse (text : String)
deriving DecidableEq, Repr

/-- The environment one admitted request runs against: the behaviour of the
inference HTTP layer, and whether sending the final reply raises. -/
structure Env where
  http : HttpBehaviour
  sendFails : Bool

/-- Everything observable about one run of on_message: the state afterwards,
the replies sent, whether get_ai_response was invoked, how many times the
author was removed from the in-flight set, and the exception (if any) that
escaped the handler. -/
structure HandleResult where
  state : BotState
  replies : List Reply
  inferenceCalled : Bool
  releases : Nat
  raised : Option PyExn

/-- users_awaiting_response.add(user_id) (src/bot.py line 127). -/
def addInFlight (st : BotState) (u : Nat) : BotState :=
  { st with inFlight := fun v => if v = u then true else st.inFlight v }

/-- users_awaiting_response.remove(user_id) (src/bot.py line 138). -/
def removeInFlight (st : BotState) (u : Nat) : BotState :=
  { st with inFlight := fun v => if v = u then false else st.inFlight v }

/-- user_cooldowns[user_id] = t (src/bot.py line 135). -/
def setCooldown (st : BotState) (u : Nat) (t : ℚ) : BotState :=
  { st with cooldowns := fun v => if v = u then some t else st.cooldowns v }

/-- One full run of on_message (src/bot.py lines 81-138).  Rejected events
leave the state unchanged and send at most one notice.  An admitted event
adds the author to the in-flight set, calls get_ai_response (total, never
raises: see get_ai_response_sem), then sends the returned string.  If that
send raises, the except-free body propagates the exception, the cooldown
write on line 135 is skipped, and the finally block still removes the author
from the in-flight set; otherwise the cooldown entry is set to the time
`tEnd` at which line 135 runs.  `releases` counts executions of the
finally-block removal. -/
def handle (botId : Nat) (endpoint : Option String) (st : BotState)
    (now tEnd : ℚ) (ev : Event) (env : Env) : HandleResult :=
  match tryAdmit botId st now ev with
  | .ignoredSelf => ⟨st, [], false, 0, none⟩
  | .ignoredNoTrigger => ⟨st, [], false, 0, none⟩
  | .alreadyInFlight => ⟨st, [.waitPrevious], false, 0, none⟩
  | .onCooldown r => ⟨st, [.cooldownNotice r], false, 0, none⟩
  | .emptyPrompt => ⟨st, [.emptyPromptNotice], false, 0, none⟩
  | .admitted prompt =>
    let st1 := addInFlight st ev.authorId
    let ai := get_ai_response endpoint prompt env.http
    if env.sendFails then
      ⟨removeInFlight st1 ev.authorId, [], true, 1,
        some (.otherExc "send raised")⟩
    else
      ⟨removeInFlight (setCooldown st1 ev.authorId tEnd) ev.authorId,
        [.aiResponse ai], true, 1, none⟩

/-- What the interpreter observes from the __main__ block: the process exit
status, the fatal reports printed, and whether bot.run was reached.  When
the bot does start, the exit code is whatever the gateway loop later
produces; the field is only meaningful for the refused-start branches. -/
structure StartResult where
  exitCode : Nat
  fatalReports : List String
  botStarted : Bool
deriving DecidableEq, Repr

/-- The __main__ block (src/bot.py lines 142-148).  Each missing-config
branch prints its FATAL ERROR line and falls off the end of the script: no
sys.exit call appears, and a Python process that runs to the end of the
module exits with status 0. -/
def mainEntry (token endpoint : Option String) : StartResult :=
  match token with
  | none =>
    ⟨0, ["FATAL ERROR: DISCORD_TOKEN is not set in the .env file."], false⟩
  | some _ =>
    match endpoint with
    | none =>
      ⟨0, ["FATAL ERROR: LM_STUDIO_ENDPOINT is not set in the .env file."],
        false⟩
    | some _ => ⟨0, [], true⟩

/-- An admitted decision, as a Boolean discriminator. -/
def isAdmittedDecision : Decision → Bool
  | .admitted _ => true
  | _ => false

/-- If the author is not in the in-flight set, admission never answers
AlreadyInFlight: that constructor is produced only by the in-flight check. -/
theorem tryAdmit_ne_alreadyInFlight (botId : Nat) (st : BotState) (now : ℚ)
    (ev : Event) (h : st.inFlight ev.authorId = false) :
    tryAdmit botId st now ev ≠ .alreadyInFlight := by
  unfold tryAdmit
  rw [h]
  split
  · simp
  · split
    · simp
    · simp only [Bool.false_eq_true, if_false]
      split
      · split
        · simp
        · unfold promptStep; split <;> simp
      · unfold promptStep; split <;> simp

/-- C9: trigger detection accepts any content starting with the four
characters of the command prefix, while extraction drops five characters:
the bare-prefix input "!askhello" is admitted and its prompt is "ello", the
character after the prefix being lost. -/
theorem C9_bare_prefix_loses_char :
    tryAdmit 1 ⟨fun _ => none, fun _ => false⟩ 0
      ⟨7, "!askhello", false, false⟩ = .admitted "ello" := by decide

/-- C10: the inference call is total at its interface: for every endpoint
configuration, prompt and HTTP-layer behaviour (exceptions included), the
exception-explicit semantics returns normally with exactly the string that
get_ai_response computes; no exception propagates to the pipeline. -/
theorem C10_inference_call_total (endpoint : Option String) (p : String)
    (b : HttpBehaviour) :
    get_ai_response_sem endpoint p b = .ok (get_ai_response endpoint p b) := by
  by_cases he : endpointFalsy endpoint = true
  · simp [get_ai_response_sem, get_ai_response, he]
  · cases b with
    | postRaises e =>
      cases e <;> simp [get_ai_response_sem, get_ai_response, tryBody, he]
    | response status j bt =>
      by_cases hs : status = 200
      · cases j with
        | invalid m =>
          simp [get_ai_response_sem, get_ai_response, tryBody, he, hs]
        | valid hk c =>
          cases hk <;>
            simp [get_ai_response_sem, get_ai_response, tryBody, he, hs]
      · simp [get_ai_response_sem, get_ai_response, tryBody, he, hs]

/-- C2 counterexample: with the gateway token absent (endpoint present), the
process refuses to start and prints a fatal report, but its exit status is
0 — the claimed non-zero exit status does not hold. -/
theorem C2_counterexample :
    (mainEntry none (some "http://localhost:1234/v1/chat/completions")).botStarted
        = false ∧
    (mainEntry none (some "http://localhost:1234/v1/chat/completions")).fatalReports
        ≠ [] ∧
    (mainEntry none (some "http://localhost:1234/v1/chat/completions")).exitCode
        = 0 := by
  refine ⟨rfl, ?_, rfl⟩
  decide

/-- C2 amended: if either required configuration value is absent, the
process refuses to start (bot.run is never reached) and reports a fatal
error, but it terminates with exit status zero, since the script prints the
report and runs off the end of the module without calling sys.exit. -/
theorem C2_missing_config_refuses_start (token endpoint : Option String)
    (h : token = none ∨ endpoint = none) :
    (mainEntry token endpoint).botStarted = false ∧
    (mainEntry token endpoint).fatalReports ≠ [] ∧
    (mainEntry token endpoint).exitCode = 0 := by
  rcases h with h | h
  · subst h
    exact ⟨rfl, by simp [mainEntry], rfl⟩
  · subst h
    cases token <;> exact ⟨rfl, by simp [mainEntry], rfl⟩

theorem C2_missing_config_refuses_start_witness :
    (mainEntry none (some "u")).botStarted = false ∧
    (mainEntry none (some "u")).fatalReports ≠ [] ∧
    (mainEntry none (some "u")).exitCode = 0 :=
  C2_missing_config_refuses_start none (some "u") (Or.inl rfl)

/-- C3 counterexample: the event with content exactly "!ask" from a fresh
user (no cooldown entry, not in flight, not the bot itself) is a triggering
event, yet its decision is EmptyPrompt, not Admitted. -/
theorem C3_counterexample :
    isTrigger ⟨7, "!ask", false, false⟩ = true ∧
    tryAdmit 1 ⟨fun _ => none, fun _ => false⟩ 0 ⟨7, "!ask", false, false⟩
        = .emptyPrompt ∧
    isAdmittedDecision
        (tryAdmit 1 ⟨fun _ => none, fun _ => false⟩ 0
          ⟨7, "!ask", false, false⟩) = false := by
  refine ⟨by decide, by decide, by decide⟩

/-- C3 amended: for a user with no cooldown entry and no in-flight
membership, a first triggering event that is not self-authored and whose
stripped prompt is non-empty is Admitted (with that prompt); triggering
events with an empty stripped prompt get EmptyPrompt instead. -/
theorem C3_first_trigger_admitted (botId : Nat) (st : BotState) (now : ℚ)
    (ev : Event) (hc : st.cooldowns ev.authorId = none)
    (hf : st.inFlight ev.authorId = false) (hs : ev.isSelf = false)
    (ht : isTrigger ev = true) (hp : promptOf botId ev ≠ "") :
    tryAdmit botId st now ev = .admitted (promptOf botId ev) := by
  simp [tryAdmit, hs, ht, hf, hc, promptStep, hp]

theorem C3_first_trigger_admitted_witness :
    tryAdmit 1 ⟨fun _ => none, fun _ => false⟩ 0
      ⟨7, "!ask hi", false, false⟩ = .admitted "hi" :=
  (C3_first_trigger_admitted 1 ⟨fun _ => none, fun _ => false⟩ 0
    ⟨7, "!ask hi", false, false⟩ rfl rfl rfl (by decide) (by decide)).trans
    (by decide)

/-- C1 counterexample: an admitted request whose inference call fails with
EndpointNotConfigured (the endpoint is unset, so get_ai_response returns the
configuration-error message and that message is what gets sent) still has
its cooldown entry updated: it goes from none to the completion time. -/
theorem C1_counterexample :
    classify none (.postRaises .clientConnectorError)
        = some .endpointNotConfigured ∧
    tryAdmit 1 ⟨fun _ => none, fun _ => false⟩ 0 ⟨7, "!ask hi", false, false⟩
        = .admitted "hi" ∧
    (handle 1 none ⟨fun _ => none, fun _ => false⟩ 0 1
        ⟨7, "!ask hi", false, false⟩
        ⟨.postRaises .clientConnectorError, false⟩).replies
        = [.aiResponse (userMessage .endpointNotConfigured)] ∧
    (handle 1 none ⟨fun _ => none, fun _ => false⟩ 0 1
        ⟨7, "!ask hi", false, false⟩
        ⟨.postRaises .clientConnectorError, false⟩).state.cooldowns 7
        = some 1 := by
  refine ⟨rfl, by decide, by decide, by decide⟩

/-- C1 amended: for every admitted request — the inference call failing or
not — the cooldown entry is updated to the completion time whenever the
reply send returns normally, because the failure string returned by
get_ai_response is sent like any answer and line 135 follows
unconditionally; the entry is left unchanged only when the send itself
raises. -/
theorem C1_cooldown_updated_even_on_failure (botId : Nat)
    (endpoint : Option String) (st : BotState) (now tEnd : ℚ) (ev : Event)
    (env : Env) (p : String)
    (h : tryAdmit botId st now ev = .admitted p) :
    (env.sendFails = false →
      (handle botId endpoint st now tEnd ev env).state.cooldowns ev.authorId
        = some tEnd) ∧
    (env.sendFails = true →
      (handle botId endpoint st now tEnd ev env).state.cooldowns ev.authorId
        = st.cooldowns ev.authorId) := by
  constructor <;> intro hsend <;>
    simp [handle, h, hsend, removeInFlight, setCooldown, addInFlight]

theorem C1_cooldown_updated_even_on_failure_witness :
    (handle 1 none ⟨fun _ => none, fun _ => false⟩ 0 2
      ⟨9, "!ask why", false, false⟩
      ⟨.postRaises .clientConnectorError, false⟩).state.cooldowns 9
      = some 2 :=
  (C1_cooldown_updated_even_on_failure 1 none ⟨fun _ => none, fun _ => false⟩
    0 2 ⟨9, "!ask why", false, false⟩
    ⟨.postRaises .clientConnectorError, false⟩ "why" (by decide)).1 rfl

/-- C4: for every admitted request, on every exit path — success, any
classified inference failure, or an exception raised by the reply send —
the author is removed from the in-flight set exactly once, and no later
event from that author is rejected with AlreadyInFlight against the
resulting state. -/
theorem C4_inflight_always_released (botId : Nat) (endpoint : Option String)
    (st : BotState) (now tEnd : ℚ) (ev : Event) (env : Env) (p : String)
    (h : tryAdmit botId st now ev = .admitted p) :
    (handle botId endpoint st now tEnd ev env).state.inFlight ev.authorId
        = false ∧
    (handle botId endpoint st now tEnd ev env).releases = 1 ∧
    ∀ now2 ev2, ev2.authorId = ev.authorId →
      tryAdmit botId (handle botId endpoint st now tEnd ev env).state now2 ev2
        ≠ .alreadyInFlight := by
  have hrel : (handle botId endpoint st now tEnd ev env).state.inFlight
      ev.authorId = false := by
    cases hsend : env.sendFails <;>
      simp [handle, h, hsend, removeInFlight, setCooldown, addInFlight]
  refine ⟨hrel, ?_, ?_⟩
  · cases hsend : env.sendFails <;> simp [handle, h, hsend]
  · intro now2 ev2 he
    exact tryAdmit_ne_alreadyInFlight botId _ now2 ev2 (by rw [he]; exact hrel)

theorem C4_inflight_always_released_witness :
    (handle 1 (some "u") ⟨fun _ => none, fun _ => false⟩ 0 1
        ⟨7, "!ask hi", false, false⟩
        ⟨.response 200 (.valid true "hello") "", false⟩).state.inFlight 7
        = false ∧
    (handle 1 (some "u") ⟨fun _ => none, fun _ => false⟩ 0 1
        ⟨7, "!ask hi", false, false⟩
        ⟨.response 200 (.valid true "hello") "", false⟩).releases = 1 :=
  ⟨(C4_inflight_always_released 1 (some "u") ⟨fun _ => none, fun _ => false⟩
      0 1 ⟨7, "!ask hi", false, false⟩
      ⟨.response 200 (.valid true "hello") "", false⟩ "hi" (by decide)).1,
    (C4_inflight_always_released 1 (some "u") ⟨fun _ => none, fun _ => false⟩
      0 1 ⟨7, "!ask hi", false, false⟩
      ⟨.response 200 (.valid true "hello") "", false⟩ "hi" (by decide)).2.1⟩

/-- C5: the admission rules run in the fixed source order: a self-authored
event is silently ignored whatever the rest of the state says, and an event
whose author is both in flight and inside the cooldown window is rejected
with AlreadyInFlight, not OnCooldown. -/
theorem C5_rule_order (botId : Nat) (st : BotState) (now : ℚ) (ev : Event) :
    (ev.isSelf = true → tryAdmit botId st now ev = .ignoredSelf) ∧
    (ev.isSelf = false → isTrigger ev = true →
      st.inFlight ev.authorId = true →
      (∃ t, st.cooldowns ev.authorId = some t ∧ now - t < COOLDOWN_SECONDS) →
      tryAdmit botId st now ev = .alreadyInFlight) := by
  constructor
  · intro hs
    simp [tryAdmit, hs]
  · intro hs ht hf _
    simp [tryAdmit, hs, ht, hf]

theorem C5_rule_order_witness :
    tryAdmit 1 ⟨fun _ => some 0, fun _ => true⟩ 3
      ⟨7, "!ask hi", false, false⟩ = .alreadyInFlight :=
  (C5_rule_order 1 ⟨fun _ => some 0, fun _ => true⟩ 3
    ⟨7, "!ask hi", false, false⟩).2 rfl (by decide) rfl
    ⟨0, rfl, by norm_num [COOLDOWN_SECONDS]⟩

/-- C6: with a cooldown entry at t1 and an event at `now`, reached past the
earlier rules, elapsed time under the window yields OnCooldown with
remaining exactly the window minus the elapsed time (exact rational
arithmetic, fractional precision preserved); elapsed at or past the window
is never rejected by the cooldown rule. -/
theorem C6_cooldown_remaining (botId : Nat) (st : BotState) (now t1 : ℚ)
    (ev : Event) (hs : ev.isSelf = false) (ht : isTrigger ev = true)
    (hf : st.inFlight ev.authorId = false)
    (hc : st.cooldowns ev.authorId = some t1) :
    (now - t1 < COOLDOWN_SECONDS →
      tryAdmit botId st now ev
        = .onCooldown (COOLDOWN_SECONDS - (now - t1))) ∧
    (COOLDOWN_SECONDS ≤ now - t1 →
      ∀ r, tryAdmit botId st now ev ≠ .onCooldown r) := by
  constructor
  · intro hlt
    simp [tryAdmit, hs, ht, hf, hc, hlt]
  · intro hge r
    have hnlt : ¬ (now - t1 < COOLDOWN_SECONDS) := not_lt.mpr hge
    simp only [tryAdmit, hs, ht, hf, hc, hnlt, promptStep,
      Bool.false_eq_true, if_false, Bool.not_true]
    split <;> simp

theorem C6_cooldown_remaining_witness :
    tryAdmit 1 ⟨fun _ => some 0, fun _ => false⟩ (9/2)
      ⟨7, "!ask hi", false, false⟩ = .onCooldown (21/2) := by
  have h := (C6_cooldown_remaining 1 ⟨fun _ => some 0, fun _ => false⟩ (9/2)
      0 ⟨7, "!ask hi", false, false⟩ rfl (by decide) rfl rfl).1
      (by norm_num [COOLDOWN_SECONDS])
  rw [h]
  simp only [Decision.onCooldown.injEq, COOLDOWN_SECONDS]
  norm_num

/-- C7: past the earlier rules, a triggering event whose stripped content is
empty is rejected with EmptyPrompt and the inference client is never
invoked for it. -/
theorem C7_empty_prompt_rejected (botId : Nat) (st : BotState) (now : ℚ)
    (ev : Event) (hs : ev.isSelf = false) (ht : isTrigger ev = true)
    (hf : st.inFlight ev.authorId = false)
    (hcd : ∀ t, st.cooldowns ev.authorId = some t →
      COOLDOWN_SECONDS ≤ now - t)
    (hp : promptOf botId ev = "") :
    tryAdmit botId st now ev = .emptyPrompt ∧
    ∀ endpoint tEnd env,
      (handle botId endpoint st now tEnd ev env).inferenceCalled = false := by
  have hd : tryAdmit botId st now ev = .emptyPrompt := by
    cases hc : st.cooldowns ev.authorId with
    | none => simp [tryAdmit, hs, ht, hf, hc, promptStep, hp]
    | some t =>
      have hnlt : ¬ (now - t < COOLDOWN_SECONDS) := not_lt.mpr (hcd t hc)
      simp [tryAdmit, hs, ht, hf, hc, hnlt, promptStep, hp]
  exact ⟨hd, fun endpoint tEnd env => by simp [handle, hd]⟩

theorem C7_empty_prompt_rejected_witness :
    tryAdmit 1 ⟨fun _ => none, fun _ => false⟩ 0 ⟨7, "!ask", false, false⟩
        = .emptyPrompt ∧
    (handle 1 (some "u") ⟨fun _ => none, fun _ => false⟩ 0 1
        ⟨7, "!ask", false, false⟩
        ⟨.response 200 (.valid true "hi") "", false⟩).inferenceCalled
        = false := by
  have h := C7_empty_prompt_rejected 1 ⟨fun _ => none, fun _ => false⟩ 0
    ⟨7, "!ask", false, false⟩ rfl (by decide) rfl
    (fun t ht => Option.noConfusion ht) (by decide)
  exact ⟨h.1, h.2 (some "u") 1 ⟨.response 200 (.valid true "hi") "", false⟩⟩

/-- The user-facing message for an upstream error always has the character
t at index 7, whatever the status code: the code only appears after the
fixed 50-character prefix. -/
theorem upstream_msg_char (c : Nat) :
    (userMessage (.upstreamError c)).data[7]? = some 't' := by
  have h1 : (7:Nat)
      < "Sorry, the AI service returned an error (Status: ".data.length := by
    decide
  show ((("Sorry, the AI service returned an error (Status: " ++ toString c)
      ++ ").").data)[7]? = some 't'
  rw [String.data_append, String.data_append]
  rw [List.getElem?_append_left (by rw [List.length_append]; omega)]
  rw [List.getElem?_append_left h1]
  decide

/-- The upstream-error message differs from every string whose character at
index 7 is not t. -/
theorem upstream_msg_ne (c : Nat) (s : String)
    (h : s.data[7]? ≠ some 't') : userMessage (.upstreamError c) ≠ s :=
  fun he => h (he ▸ upstream_msg_char c)

/-- C8: whenever configuration plus HTTP behaviour amount to one of the
five FailureKinds, get_ai_response returns exactly the user-facing message
of that kind; the five messages are pairwise distinct for every status code; and
the raw transport details (upstream body text, exception text, unexpected
JSON payload) never influence the user-facing string. -/
theorem C8_failure_messages :
    (∀ endpoint p b k, classify endpoint b = some k →
      get_ai_response endpoint p b = userMessage k) ∧
    (∀ c : Nat,
      userMessage .endpointNotConfigured ≠ userMessage .connectionRefused ∧
      userMessage .endpointNotConfigured ≠ userMessage .malformedResponse ∧
      userMessage .endpointNotConfigured ≠ userMessage .unknownError ∧
      userMessage .connectionRefused ≠ userMessage .malformedResponse ∧
      userMessage .connectionRefused ≠ userMessage .unknownError ∧
      userMessage .malformedResponse ≠ userMessage .unknownError ∧
      userMessage (.upstreamError c) ≠ userMessage .endpointNotConfigured ∧
      userMessage (.upstreamError c) ≠ userMessage .connectionRefused ∧
      userMessage (.upstreamError c) ≠ userMessage .malformedResponse ∧
      userMessage (.upstreamError c) ≠ userMessage .unknownError) ∧
    (∀ endpoint p status j b1 b2,
      get_ai_response endpoint p (.response status j b1)
        = get_ai_response endpoint p (.response status j b2)) ∧
    (∀ endpoint p m1 m2,
      get_ai_response endpoint p (.postRaises (.otherExc m1))
        = get_ai_response endpoint p (.postRaises (.otherExc m2))) ∧
    (∀ endpoint p c1 c2 b1 b2,
      get_ai_response endpoint p (.response 200 (.valid false c1) b1)
        = get_ai_response endpoint p (.response 200 (.valid false c2) b2)) ∧
    (∀ endpoint p m1 m2 b1 b2,
      get_ai_response endpoint p (.response 200 (.invalid m1) b1)
        = get_ai_response endpoint p (.response 200 (.invalid m2) b2)) := by
  refine ⟨?_, ?_, ?_, ?_, ?_, ?_⟩
  · intro endpoint p b k hk
    by_cases he : endpointFalsy endpoint = true
    · simp only [classify, he, if_true, Option.some.injEq] at hk
      subst hk
      simp [get_ai_response, he, userMessage]
    · cases b with
      | postRaises e =>
        cases e with
        | clientConnectorError =>
          simp only [classify, he, Bool.false_eq_true, if_false,
            Option.some.injEq] at hk
          subst hk
          simp [get_ai_response, he, userMessage]
        | otherExc m =>
          simp only [classify, he, Bool.false_eq_true, if_false,
            Option.some.injEq] at hk
          subst hk
          simp [get_ai_response, he, userMessage]
      | response status j bt =>
        by_cases hst : status = 200
        · cases j with
          | invalid m =>
            simp only [classify, he, hst, Bool.false_eq_true, if_false,
              if_true, Option.some.injEq] at hk
            subst hk
            simp [get_ai_response, he, hst, userMessage]
          | valid hkk c =>
            cases hkk with
            | false =>
              simp only [classify, he, hst, Bool.false_eq_true, if_false,
                if_true, Option.some.injEq] at hk
              subst hk
              simp [get_ai_response, he, hst, userMessage]
            | true =>
              simp [classify, he, hst] at hk
        · simp only [classify, he, hst, Bool.false_eq_true, if_false,
            Option.some.injEq] at hk
          subst hk
          simp [get_ai_response, he, hst, userMessage]
  · intro c
    refine ⟨by decide, by decide, by decide, by decide, by decide, by decide,
      ?_, ?_, ?_, ?_⟩ <;> exact upstream_msg_ne c _ (by decide)
  · intro endpoint p status j b1 b2
    simp [get_ai_response]
  · intro endpoint p m1 m2
    simp [get_ai_response]
  · intro endpoint p c1 c2 b1 b2
    simp [get_ai_response]
  · intro endpoint p m1 m2 b1 b2
    simp [get_ai_response]

theorem C8_failure_messages_witness :
    get_ai_response none "p" (.response 200 (.valid true "hi") "")
      = userMessage .endpointNotConfigured :=
  C8_failure_messages.1 none "p" (.response 200 (.valid true "hi") "")
    .endpointNotConfigured (by decide)
